import Mathlib

/-!
Shallow embedding of `src/pages/clients/EditClient.tsx` (micro-finance-app).

The component holds five `useState` cells (`client`, `branches`, `isLoading`,
`isSubmitting`, `error`), an async `loadData` run from a `useEffect`, and an
async `handleSubmit`.  We embed the component state as a structure, and the two
async bodies as pure functions from the state and the results of the external
calls (`fetchClientById`, the supabase branches query, `updateClient`) to the
new state plus the ordered list of observable effects (toasts, the
`updateClient` call, `navigate`, `console.error`, and the issue/completion
events of the two fetches, recorded in the program order of the `await`s).
-/

namespace EditClient

/-- A client record (`Client` from `@/types/client`), restricted to the fields
this page reads or writes: the id, the mutable form fields and the branch
association. -/
structure Client where
  id : String
  name : String
  dateOfBirth : String
  branchId : String
deriving Repr, DecidableEq

/-- A branch reference entry as selected by the supabase query:
`select('id, name')` on table `branches`. -/
structure Branch where
  id : String
  name : String
deriving Repr, DecidableEq

/-- Result shape of `fetchClientById`: `{ success, data?, message }`.
`data` is optional; the code tests `clientResult.success && clientResult.data`. -/
structure FetchClientResult where
  success : Bool
  data : Option Client
  message : String
deriving Repr, DecidableEq

/-- Result shape of `updateClient`: `{ success, message }`. -/
structure UpdateResult where
  success : Bool
  message : String
deriving Repr, DecidableEq

/-- The five `useState` cells of the component (lines 17–21 of the source). -/
structure ComponentState where
  client : Option Client
  branches : List Branch
  isLoading : Bool
  isSubmitting : Bool
  error : Option String
deriving Repr, DecidableEq

/-- The `useState` initializers: `null`, `[]`, `true`, `false`, `null`. -/
def initialState : ComponentState :=
  { client := none
    branches := []
    isLoading := true
    isSubmitting := false
    error := none }

/-- Observable effects of the two async bodies, in program order.  The four
fetch events record when each of the two awaited calls in `loadData` is issued
and when its result is received. -/
inductive Effect where
  | fetchRecordIssued
  | fetchRecordCompleted
  | fetchRefsIssued
  | fetchRefsCompleted
  | toast (variant : Option String) (title : String) (description : String)
  | updateCall (record : Client)
  | navigate (route : String)
  | consoleError
deriving Repr, DecidableEq

/-- The hardcoded fallback branch list of lines 51–55. -/
def fallbackBranches : List Branch :=
  [{ id := "1", name := "Main Branch" },
   { id := "2", name := "East Branch" },
   { id := "3", name := "West Branch" }]

/-- The branches query result: supabase returns `{ data, error }`; the code
throws when `error` is non-null, and otherwise sees a nullable list.  We embed
it as `Except`, with the `ok` payload optional exactly as `data` is. -/
abbrev BranchesResult := Except String (Option (List Branch))

/-- `loadData` (lines 25–69).  Sequencing follows the source: set
`isLoading := true` and `error := null`; await `fetchClientById(id)`; on
`success && data` set `client`, else set `error := message`; then await the
supabase branches query; a query error is thrown and caught, setting
`error := "An unexpected error occurred"` and logging; otherwise a non-empty
`data` is stored, and a null or empty `data` stores `fallbackBranches` and
emits one warning toast; `finally` sets `isLoading := false`.  The two awaits
are strictly sequential, so the fetch events appear in the trace in that
order. -/
def loadData (clientResult : FetchClientResult) (branchesResult : BranchesResult)
    (s : ComponentState) : ComponentState × List Effect :=
  let sReset := { s with isLoading := true, error := none }
  let sClient :=
    if clientResult.success && clientResult.data.isSome then
      { sReset with client := clientResult.data }
    else
      { sReset with error := some clientResult.message }
  let fetchTrace := [Effect.fetchRecordIssued, Effect.fetchRecordCompleted,
                     Effect.fetchRefsIssued, Effect.fetchRefsCompleted]
  match branchesResult with
  | Except.error _ =>
      ({ sClient with error := some "An unexpected error occurred", isLoading := false },
       fetchTrace ++ [Effect.consoleError])
  | Except.ok branchesData =>
      match branchesData with
      | some bs =>
          if bs.length > 0 then
            ({ sClient with branches := bs, isLoading := false }, fetchTrace)
          else
            ({ sClient with branches := fallbackBranches, isLoading := false },
             fetchTrace ++
               [Effect.toast (some "warning") "Using mock branch data"
                  "No active branches found in the database"])
      | none =>
          ({ sClient with branches := fallbackBranches, isLoading := false },
           fetchTrace ++
             [Effect.toast (some "warning") "Using mock branch data"
                "No active branches found in the database"])

/-- The submitted form payload.  The source types it `any` and reads
`data.branchId` and `data.dateOfBirth`; the form supplies the editable fields,
which are spread over the loaded client. -/
structure SubmitData where
  name : String
  dateOfBirth : String
  branchId : String
deriving Repr, DecidableEq

/-- The record passed to `updateClient`: `{...client, ...data, dateOfBirth:
data.dateOfBirth}` — the id comes from the loaded client, every form field is
overwritten by the submitted payload. -/
def mergeClient (c : Client) (d : SubmitData) : Client :=
  { id := c.id, name := d.name, dateOfBirth := d.dateOfBirth, branchId := d.branchId }

/-- `handleSubmit` (lines 76–118).  `if (!client) return;` — with no loaded
client nothing at all happens.  Otherwise: `setIsSubmitting(true)`; if
`data.branchId` is not the id of any loaded branch, an error is thrown and
caught (log, `setIsSubmitting(false)`, one destructive toast); otherwise
`updateClient` is awaited on the merged record, `setIsSubmitting(false)` runs
unconditionally, then success yields a success toast and `navigate('/clients')`
while failure yields a destructive toast with the store message.  There is no
check of `isSubmitting` anywhere in the body. -/
def handleSubmit (s : ComponentState) (data : SubmitData)
    (updateResult : UpdateResult) : ComponentState × List Effect :=
  match s.client with
  | none => (s, [])
  | some client =>
      let s1 := { s with isSubmitting := true }
      if !(s1.branches.any fun branch => branch.id == data.branchId) then
        ({ s1 with isSubmitting := false },
         [Effect.consoleError,
          Effect.toast (some "destructive") "Error updating client"
            "Selected branch does not exist"])
      else
        let merged := mergeClient client data
        let s2 := { s1 with isSubmitting := false }
        if updateResult.success then
          (s2, [Effect.updateCall merged,
                Effect.toast none "Client updated"
                  "The client has been updated successfully",
                Effect.navigate "/clients"])
        else
          (s2, [Effect.updateCall merged,
                Effect.toast (some "destructive") "Error updating client"
                  updateResult.message])

/-- The workflow states of the spec's state machine. -/
inductive WorkflowState where
  | Loading
  | Error (message : String)
  | Ready
  | Submitting
deriving Repr, DecidableEq

/-- The render of lines 143–161 maps the state cells to what the user sees:
`isLoading` first, then `error`, then the form when a client is loaded (the
form receives `isSubmitting`, distinguishing Submitting from Ready), and
nothing otherwise (`null` render, `Option.none` here). -/
def viewState (s : ComponentState) : Option WorkflowState :=
  if s.isLoading then some WorkflowState.Loading
  else
    match s.error with
    | some m => some (WorkflowState.Error m)
    | none =>
        match s.client with
        | some _ =>
            some (if s.isSubmitting then WorkflowState.Submitting
                  else WorkflowState.Ready)
        | none => none

/-- Predicate for the `navigate` effect. -/
def isNavigate : Effect → Bool
  | Effect.navigate _ => true
  | _ => false

/-- Predicate for the `updateClient` call effect. -/
def isUpdateCall : Effect → Bool
  | Effect.updateCall _ => true
  | _ => false

/-- Predicate for a destructive (error) toast. -/
def isErrorToast : Effect → Bool
  | Effect.toast (some v) _ _ => v == "destructive"
  | _ => false

/-- Predicate for a warning toast. -/
def isWarningToast : Effect → Bool
  | Effect.toast (some v) _ _ => v == "warning"
  | _ => false

/-- Predicate for a success toast (the source's success toast has no
variant). -/
def isSuccessToast : Effect → Bool
  | Effect.toast none _ _ => true
  | _ => false

/-! Concrete sample data, used by counterexamples and witnesses. -/

/-- The scenario client of the spec: id `"42"`, stale `branchId = "9"`. -/
def sampleClient : Client :=
  { id := "42", name := "Jane Doe", dateOfBirth := "1990-01-01", branchId := "9" }

/-- A reference set without `"9"`: `[{id:"1",...},{id:"2",...}]`. -/
def sampleBranches : List Branch :=
  [{ id := "1", name := "Main Branch" }, { id := "2", name := "East Branch" }]

/-- A successful record fetch returning `sampleClient`. -/
def sampleOkFetch : FetchClientResult :=
  { success := true, data := some sampleClient, message := "" }

/-- A failed record fetch (not-found). -/
def sampleFailFetch : FetchClientResult :=
  { success := false, data := none, message := "Client not found" }

/-- A submitted edit choosing the existing branch `"1"`. -/
def sampleData : SubmitData :=
  { name := "Jane Doe", dateOfBirth := "1990-01-01", branchId := "1" }

/-- A successful `updateClient` result. -/
def sampleOkUpdate : UpdateResult := { success := true, message := "" }

/-- A `Ready` component state: `sampleClient` loaded with `sampleBranches`. -/
def sampleReady : ComponentState :=
  { client := some sampleClient
    branches := sampleBranches
    isLoading := false
    isSubmitting := false
    error := none }

/-- The same state while a submit is in flight (`isSubmitting = true`). -/
def sampleSubmitting : ComponentState :=
  { sampleReady with isSubmitting := true }

end EditClient

namespace EditClient

/-- **C1.** If the record fetch fails (`success && data` is falsy — not-found
or backend error), `loadData` ends with the Error view state, emits no
navigation, and this holds for every reference-fetch outcome. -/
theorem recordFetchFailure_yields_error_no_navigation
    (clientResult : FetchClientResult) (branchesResult : BranchesResult)
    (s : ComponentState)
    (hfail : (clientResult.success && clientResult.data.isSome) = false) :
    (∃ m, viewState (loadData clientResult branchesResult s).1
            = some (WorkflowState.Error m)) ∧
    List.countP isNavigate (loadData clientResult branchesResult s).2 = 0 := by
  cases branchesResult with
  | error e =>
      refine ⟨⟨"An unexpected error occurred", ?_⟩, ?_⟩ <;>
        simp [loadData, hfail, viewState, isNavigate]
  | ok branchesData =>
      cases branchesData with
      | none =>
          refine ⟨⟨clientResult.message, ?_⟩, ?_⟩ <;>
            simp [loadData, hfail, viewState, isNavigate]
      | some bs =>
          by_cases hlen : bs.length > 0
          · refine ⟨⟨clientResult.message, ?_⟩, ?_⟩ <;>
              simp [loadData, hfail, hlen, viewState, isNavigate]
          · refine ⟨⟨clientResult.message, ?_⟩, ?_⟩ <;>
              simp [loadData, hfail, hlen, viewState, isNavigate]

/-- Witness for C1 at a concrete failed fetch with a succeeding reference
fetch. -/
theorem recordFetchFailure_yields_error_no_navigation_witness :
    (∃ m, viewState (loadData sampleFailFetch
              (Except.ok (some sampleBranches)) initialState).1
            = some (WorkflowState.Error m)) ∧
    List.countP isNavigate (loadData sampleFailFetch
        (Except.ok (some sampleBranches)) initialState).2 = 0 :=
  recordFetchFailure_yields_error_no_navigation sampleFailFetch
    (Except.ok (some sampleBranches)) initialState (by decide)

/-- **C2.** Submitting from a loaded, non-error state a payload whose
`branchId` matches no loaded branch: no `updateClient` call, exactly one
destructive toast, and the state renders as Ready again. -/
theorem invalidBranch_submit_rejected
    (s : ComponentState) (data : SubmitData) (r : UpdateResult) (c : Client)
    (hc : s.client = some c) (hl : s.isLoading = false) (he : s.error = none)
    (hb : (s.branches.any fun branch => branch.id == data.branchId) = false) :
    viewState (handleSubmit s data r).1 = some WorkflowState.Ready ∧
    List.countP isUpdateCall (handleSubmit s data r).2 = 0 ∧
    List.countP isErrorToast (handleSubmit s data r).2 = 1 := by
  simp [handleSubmit, hc, hb, viewState, hl, he, isUpdateCall, isErrorToast]

/-- Witness for C2: submit `branchId = "7"` against `sampleReady`. -/
theorem invalidBranch_submit_rejected_witness :
    viewState (handleSubmit sampleReady { sampleData with branchId := "7" }
        sampleOkUpdate).1 = some WorkflowState.Ready ∧
    List.countP isUpdateCall (handleSubmit sampleReady
        { sampleData with branchId := "7" } sampleOkUpdate).2 = 0 ∧
    List.countP isErrorToast (handleSubmit sampleReady
        { sampleData with branchId := "7" } sampleOkUpdate).2 = 1 :=
  invalidBranch_submit_rejected sampleReady { sampleData with branchId := "7" }
    sampleOkUpdate sampleClient (by decide) (by decide) (by decide) (by decide)

/-- **C10.** With no loaded client (`client = null`), `handleSubmit` returns
immediately: the state is unchanged and no effect at all is emitted. -/
theorem submit_without_client_is_noop
    (s : ComponentState) (data : SubmitData) (r : UpdateResult)
    (hc : s.client = none) :
    handleSubmit s data r = (s, []) := by
  simp [handleSubmit, hc]

/-- Witness for C10 at the initial state. -/
theorem submit_without_client_is_noop_witness :
    handleSubmit initialState sampleData sampleOkUpdate = (initialState, []) :=
  submit_without_client_is_noop initialState sampleData sampleOkUpdate rfl

/-- **C4.** Record fetch succeeds and the reference fetch succeeds with an
empty list: the load reaches Ready, the stored branches are exactly the three
fallback entries with literal ids "1","2","3" and names "Main Branch",
"East Branch","West Branch", and exactly one warning toast is emitted. -/
theorem emptyReferences_fallback_ready
    (clientResult : FetchClientResult) (s : ComponentState) (c : Client)
    (hs : clientResult.success = true) (hd : clientResult.data = some c)
    (hsub : s.isSubmitting = false) :
    viewState (loadData clientResult (Except.ok (some [])) s).1
      = some WorkflowState.Ready ∧
    (loadData clientResult (Except.ok (some [])) s).1.branches
      = [{ id := "1", name := "Main Branch" },
         { id := "2", name := "East Branch" },
         { id := "3", name := "West Branch" }] ∧
    List.countP isWarningToast (loadData clientResult (Except.ok (some [])) s).2
      = 1 := by
  simp [loadData, hs, hd, viewState, hsub, fallbackBranches, isWarningToast]

/-- Witness for C4: successful fetch of `sampleClient`, empty branch list, from
the initial state. -/
theorem emptyReferences_fallback_ready_witness :
    viewState (loadData sampleOkFetch (Except.ok (some [])) initialState).1
      = some WorkflowState.Ready ∧
    (loadData sampleOkFetch (Except.ok (some [])) initialState).1.branches
      = [{ id := "1", name := "Main Branch" },
         { id := "2", name := "East Branch" },
         { id := "3", name := "West Branch" }] ∧
    List.countP isWarningToast
        (loadData sampleOkFetch (Except.ok (some [])) initialState).2 = 1 :=
  emptyReferences_fallback_ready sampleOkFetch initialState sampleClient
    rfl rfl rfl

/-- **C5.** The reference fetch fails with a backend error: even though the
record fetch succeeded, the load ends in the Error view state (the normalized
message), the branches cell is untouched (the fallback is not installed), and
no warning toast is emitted. -/
theorem referenceFetchError_is_hard_failure
    (clientResult : FetchClientResult) (s : ComponentState) (c : Client)
    (e : String)
    (hs : clientResult.success = true) (hd : clientResult.data = some c) :
    viewState (loadData clientResult (Except.error e) s).1
      = some (WorkflowState.Error "An unexpected error occurred") ∧
    (loadData clientResult (Except.error e) s).1.branches = s.branches ∧
    List.countP isWarningToast (loadData clientResult (Except.error e) s).2
      = 0 := by
  simp [loadData, hs, hd, viewState, isWarningToast]

/-- Witness for C5 at a concrete backend error. -/
theorem referenceFetchError_is_hard_failure_witness :
    viewState (loadData sampleOkFetch (Except.error "timeout") initialState).1
      = some (WorkflowState.Error "An unexpected error occurred") ∧
    (loadData sampleOkFetch (Except.error "timeout") initialState).1.branches
      = initialState.branches ∧
    List.countP isWarningToast
        (loadData sampleOkFetch (Except.error "timeout") initialState).2 = 0 :=
  referenceFetchError_is_hard_failure sampleOkFetch initialState sampleClient
    "timeout" rfl rfl

/-- **C7.** A record whose existing `branchId` matches no loaded branch still
loads to Ready (the loader never validates it), and a subsequent submit whose
`branchId` is a member passes validation: `updateClient` is called once and
the success path (one navigation) is taken. -/
theorem staleBranchId_load_ready_then_valid_submit
    (clientResult : FetchClientResult) (s : ComponentState) (c : Client)
    (bs : List Branch) (data : SubmitData) (r : UpdateResult)
    (hs : clientResult.success = true) (hd : clientResult.data = some c)
    (hsub : s.isSubmitting = false)
    (hne : bs ≠ [])
    (_hstale : (bs.any fun branch => branch.id == c.branchId) = false)
    (hmem : (bs.any fun branch => branch.id == data.branchId) = true)
    (hr : r.success = true) :
    viewState (loadData clientResult (Except.ok (some bs)) s).1
      = some WorkflowState.Ready ∧
    List.countP isUpdateCall
        (handleSubmit (loadData clientResult (Except.ok (some bs)) s).1 data
          r).2 = 1 ∧
    List.countP isNavigate
        (handleSubmit (loadData clientResult (Except.ok (some bs)) s).1 data
          r).2 = 1 := by
  have hlen : bs.length > 0 := List.length_pos.mpr hne
  simp [loadData, hs, hd, hlen, viewState, hsub, handleSubmit, hmem, hr,
    isUpdateCall, isNavigate, isSuccessToast]

/-- Witness for C7: the spec scenario — record `"42"` with stale
`branchId = "9"`, branches `["1","2"]`, submit with `branchId = "1"`. -/
theorem staleBranchId_load_ready_then_valid_submit_witness :
    viewState (loadData sampleOkFetch (Except.ok (some sampleBranches))
        initialState).1 = some WorkflowState.Ready ∧
    List.countP isUpdateCall
        (handleSubmit (loadData sampleOkFetch (Except.ok (some sampleBranches))
            initialState).1 sampleData sampleOkUpdate).2 = 1 ∧
    List.countP isNavigate
        (handleSubmit (loadData sampleOkFetch (Except.ok (some sampleBranches))
            initialState).1 sampleData sampleOkUpdate).2 = 1 :=
  staleBranchId_load_ready_then_valid_submit sampleOkFetch initialState
    sampleClient sampleBranches sampleData sampleOkUpdate rfl rfl rfl
    (by decide) (by decide) (by decide) rfl

/-- **C3 counterexample.** From a Submitting state (`isSubmitting = true`,
client loaded), a second submit is not ignored: the body runs, `updateClient`
is called (once more), and the state changes (`isSubmitting` is reset).  The
claimed no-op guard does not exist in `handleSubmit`. -/
theorem submit_while_submitting_not_noop :
    viewState sampleSubmitting = some WorkflowState.Submitting ∧
    List.countP isUpdateCall
        (handleSubmit sampleSubmitting sampleData sampleOkUpdate).2 = 1 ∧
    (handleSubmit sampleSubmitting sampleData sampleOkUpdate).1
      ≠ sampleSubmitting := by
  decide

/-- **C3 amended.** `handleSubmit` never consults `isSubmitting`: with a
loaded client its result is identical whether the incoming state is Submitting
or Ready, so a submit issued while already Submitting runs the full body
(validation, possible `updateClient` call) exactly as a first submit would. -/
theorem handleSubmit_ignores_isSubmitting
    (s : ComponentState) (data : SubmitData) (r : UpdateResult) (c : Client)
    (hc : s.client = some c) :
    handleSubmit { s with isSubmitting := true } data r
      = handleSubmit { s with isSubmitting := false } data r := by
  simp [handleSubmit, hc]

/-- Witness for the amended C3 at the sample Ready state. -/
theorem handleSubmit_ignores_isSubmitting_witness :
    handleSubmit { sampleReady with isSubmitting := true } sampleData
        sampleOkUpdate
      = handleSubmit { sampleReady with isSubmitting := false } sampleData
        sampleOkUpdate :=
  handleSubmit_ignores_isSubmitting sampleReady sampleData sampleOkUpdate
    sampleClient rfl

/-- **C6 counterexample.** On a successful update the handler does emit one
success toast and navigate exactly once — but `setIsSubmitting(false)` at line
94 runs before the success branch, so the resulting state renders as Ready
again, contradicting "does not transition back to Ready". -/
theorem successfulUpdate_returns_to_ready_state :
    List.countP isSuccessToast
        (handleSubmit sampleReady sampleData sampleOkUpdate).2 = 1 ∧
    List.countP isNavigate
        (handleSubmit sampleReady sampleData sampleOkUpdate).2 = 1 ∧
    viewState (handleSubmit sampleReady sampleData sampleOkUpdate).1
      = some WorkflowState.Ready := by
  decide

/-- **C6 amended.** On a successful update (loaded client, member `branchId`,
store success) the handler emits exactly one success toast, invokes `navigate`
exactly once as its final effect (nothing after it), and clears
`isSubmitting` first, so the component state passes back through Ready before
navigation unmounts it. -/
theorem successfulUpdate_navigates_once_last
    (s : ComponentState) (data : SubmitData) (r : UpdateResult) (c : Client)
    (hc : s.client = some c) (hl : s.isLoading = false) (he : s.error = none)
    (hb : (s.branches.any fun branch => branch.id == data.branchId) = true)
    (hr : r.success = true) :
    List.countP isSuccessToast (handleSubmit s data r).2 = 1 ∧
    List.countP isNavigate (handleSubmit s data r).2 = 1 ∧
    (handleSubmit s data r).2.getLast? = some (Effect.navigate "/clients") ∧
    viewState (handleSubmit s data r).1 = some WorkflowState.Ready := by
  simp [handleSubmit, hc, hb, hr, viewState, hl, he, isSuccessToast,
    isNavigate]

/-- Witness for the amended C6 at the sample Ready state. -/
theorem successfulUpdate_navigates_once_last_witness :
    List.countP isSuccessToast
        (handleSubmit sampleReady sampleData sampleOkUpdate).2 = 1 ∧
    List.countP isNavigate
        (handleSubmit sampleReady sampleData sampleOkUpdate).2 = 1 ∧
    (handleSubmit sampleReady sampleData sampleOkUpdate).2.getLast?
      = some (Effect.navigate "/clients") ∧
    viewState (handleSubmit sampleReady sampleData sampleOkUpdate).1
      = some WorkflowState.Ready :=
  successfulUpdate_navigates_once_last sampleReady sampleData sampleOkUpdate
    sampleClient rfl rfl rfl (by decide) rfl

/-- The load continuation relative to instance disposal.  The `useEffect` at
lines 24–74 returns no cleanup function and sets no cancellation flag, so the
body of `loadData` is oblivious to whether the component instance has been
disposed: whatever `disposed` is, the continuation that runs when the awaited
results arrive is exactly `loadData`. -/
def loadAfterDisposal (disposed : Bool) (clientResult : FetchClientResult)
    (branchesResult : BranchesResult) (s : ComponentState) :
    ComponentState × List Effect :=
  let _ := disposed
  loadData clientResult branchesResult s

/-- **C8.** The source has no teardown guard: a load result arriving after
disposal is processed identically to one arriving before (the `disposed` flag
cannot influence the continuation), and on the disposed instance it still
mutates state (sets the client) and still emits a notification (the warning
toast of the empty-reference path). -/
theorem disposed_instance_still_mutates_and_notifies :
    loadAfterDisposal true sampleOkFetch (Except.ok (some [])) initialState
      = loadAfterDisposal false sampleOkFetch (Except.ok (some []))
          initialState ∧
    (loadAfterDisposal true sampleOkFetch (Except.ok (some []))
        initialState).1.client = some sampleClient ∧
    List.countP isWarningToast
        (loadAfterDisposal true sampleOkFetch (Except.ok (some []))
          initialState).2 = 1 := by
  decide

/-- **C9 counterexample.** In the effect trace of `loadData` the reference
fetch is issued strictly after the record fetch has completed — the second
`await` blocks on the first — so the two fetches are not issued
concurrently. -/
theorem referenceFetch_issued_after_recordFetch_completes :
    List.indexOf Effect.fetchRecordCompleted
        (loadData sampleOkFetch (Except.ok (some sampleBranches))
          initialState).2
      < List.indexOf Effect.fetchRefsIssued
        (loadData sampleOkFetch (Except.ok (some sampleBranches))
          initialState).2 := by
  decide

/-- **C9 amended.** The fetches are sequential: every trace of `loadData`
begins with record-issued, record-completed, refs-issued, refs-completed in
that order, for every pair of fetch results; and the outcome is a function of
the two results alone (`loadData` is deterministic in them). -/
theorem loadData_fetches_sequential
    (clientResult : FetchClientResult) (branchesResult : BranchesResult)
    (s : ComponentState) :
    ∃ rest, (loadData clientResult branchesResult s).2
      = [Effect.fetchRecordIssued, Effect.fetchRecordCompleted,
         Effect.fetchRefsIssued, Effect.fetchRefsCompleted] ++ rest := by
  cases branchesResult with
  | error e => exact ⟨[Effect.consoleError], by simp [loadData]⟩
  | ok branchesData =>
      cases branchesData with
      | none =>
          exact ⟨[Effect.toast (some "warning") "Using mock branch data"
            "No active branches found in the database"], by simp [loadData]⟩
      | some bs =>
          by_cases hlen : bs.length > 0
          · exact ⟨[], by simp [loadData, hlen]⟩
          · exact ⟨[Effect.toast (some "warning") "Using mock branch data"
              "No active branches found in the database"],
              by simp [loadData, hlen]⟩

end EditClient
